import Mathlib

/-
Verification of the ghost-input-filter repository (final variant,
src/ghost-input-filter.py) against its natural-language specification.

Shallow embedding conventions:
- Timestamps (datetime values, second-valued durations) are rationals (ℚ).
- Python dicts keyed by button identifier are insertion-ordered association
  lists `List (Nat × Button)`; dict insertion replaces in place when the key
  is present and appends otherwise.
- Optional / initially-None fields are `Option _`; Python truthiness of such
  a field is `truthy` below (None and False are falsy, True is truthy).
- The float arithmetic in the statistics code is modelled over ℚ; every
  concrete value appearing in a theorem below is a dyadic rational (or 1/2),
  exactly representable in binary64, so ℚ is faithful at those points.
- The statistics maps are keyed in Python by strings ("(Joy 3)",
  "(2 at once)", str(set-of-identifiers)); these renderings are injective in
  the underlying identifier / size / identifier-set, so the model keys the
  maps directly by `Nat` (identifier and size) and by the sorted identifier
  list (the canonical form of a Python set of ints).
-/

namespace GhostInputFilter

/-- Python truthiness of an optional boolean field: None and False are
falsy, True is truthy. -/
def truthy : Option Bool → Bool
  | some b => b
  | none => false

/-- Python `abs` on a rational time delta (`abs(delta.total_seconds())`). -/
def pyAbs (q : ℚ) : ℚ := if q < 0 then -q else q

/-- Translation of the `Settings.Buttons` configuration record
(src/ghost-input-filter.py, `class Settings.Buttons`).  `callbacks` maps a
direction (`true` = press, `false` = release) and a button identifier to the
ordered list of registered callback handles (modelled as numeric ids). -/
structure SettingsButtons where
  enabled : Bool
  filter : Bool
  latency : ℚ
  max_concurrent : Nat
  min_separation : ℚ
  is_strict : Bool
  callbacks : Bool → Nat → List Nat

/-- Translation of `Settings.Buttons.__init__`: millisecond configuration
values are divided by 1000, and forced to 0 when filtering is disabled;
the callback registry starts empty. -/
def SettingsButtons.init (enabled filter : Bool) (latency : ℚ) (max_concurrent : Nat)
    (min_separation : ℚ) (is_strict : Bool) : SettingsButtons :=
  { enabled := enabled
    filter := filter
    latency := if filter then latency / 1000 else 0
    max_concurrent := max_concurrent
    min_separation := if filter then min_separation / 1000 else 0
    is_strict := is_strict
    callbacks := fun _ _ => [] }

/-- Translation of `class Button` (single button-press transition).
`event_id`, `is_still_pressed`, `is_ghost`, `trigger_time`, `end_time` start
as None in `Button.__init__` and are assigned later. -/
structure Button where
  event_id : Option ℚ
  identifier : Nat
  was_a_press : Bool
  is_still_pressed : Option Bool
  is_ghost : Option Bool
  start_time : ℚ
  trigger_time : Option ℚ
  end_time : Option ℚ
deriving DecidableEq

/-- Translation of `Button.__init__(e)`: all mutable classification fields
start as None; `start_time` is the arrival time (`datetime.now()`). -/
def Button.init (identifier : Nat) (is_pressed : Bool) (now : ℚ) : Button :=
  { event_id := none
    identifier := identifier
    was_a_press := is_pressed
    is_still_pressed := none
    is_ghost := none
    start_time := now
    trigger_time := none
    end_time := none }

/-- Translation of `class Event` (a Correlation Group of simultaneous
transitions).  `buttons` is the insertion-ordered identifier-to-Button dict. -/
structure Event where
  start_time : ℚ
  end_time : Option ℚ
  id : ℚ
  buttons : List (Nat × Button)
deriving DecidableEq

/-- Translation of `Event.__init__()` with no arguments: a fresh empty group
whose id is its creation time. -/
def Event.fresh (now : ℚ) : Event :=
  { start_time := now, end_time := none, id := now, buttons := [] }

/-- Python dict assignment `d[k] = v`: replace in place when the key is
present, append otherwise. -/
def assocSet (l : List (Nat × Button)) (k : Nat) (v : Button) : List (Nat × Button) :=
  if l.any (fun p => p.1 == k) then
    l.map (fun p => if p.1 == k then (k, v) else p)
  else
    l ++ [(k, v)]

/-- Translation of `Event.has_any(is_ghost=True)`: does any member's
`is_ghost` field equal the given boolean (None matches neither). -/
def Event.has_any (ev : Event) (g : Bool) : Bool :=
  ev.buttons.any (fun p => p.2.is_ghost == some g)

/-- Translation of `Event.has_matching(the_button, is_ghost=True)`: look up
the member with the same identifier and compare its classification. -/
def Event.has_matching (ev : Event) (b : Button) (g : Bool) : Bool :=
  match ev.buttons.lookup b.identifier with
  | some mb => mb.is_ghost == some g
  | none => false

/-- Translation of `Event.get_active_presses()`: identifiers of members
whose `end_time` is still None (non-expired). -/
def Event.get_active_presses (ev : Event) : List Nat :=
  (ev.buttons.filter (fun p => p.2.end_time == none)).map Prod.fst

/-- Translation of `Event.find_button(the_button)`.  Faithful to the source:
the Python body evaluates `self.buttons.get(the_button.identifier)` but has
no return statement, so the function always returns None. -/
def Event.find_button (ev : Event) (b : Button) : Option Button :=
  let _ := ev.buttons.lookup b.identifier
  none

/-- Translation of `Button.connect_to_event(the_event)`. -/
def Button.connect_to_event (b : Button) (ev : Event) : Button :=
  { b with event_id := some ev.id }

/-- Translation of `Event.add_button(the_button)`: link the button to this
group (`connect_to_event`), insert it into the dict, and return it. -/
def Event.add_button (ev : Event) (b : Button) : Event × Button :=
  let b' := b.connect_to_event ev
  ({ ev with buttons := assocSet ev.buttons b.identifier b' }, b')

/-- Effect of `the_button.expire()` on the group holding the button: in
Python the dict entry aliases the very object being mutated, so the entry
equal to the expiring button gets its `end_time` set as well.  (Structural
equality stands in for Python object identity; in the states considered
here at most one entry per identifier exists.) -/
def Event.expire_member (ev : Event) (b : Button) (now : ℚ) : Event :=
  { ev with buttons := ev.buttons.map (fun p =>
      if p.1 = b.identifier ∧ p.2 = b then (p.1, { b with end_time := some now }) else p) }

/-- Per-direction aggregate counters for events
(`totals['events']['allowed'/'blocked']`): a total, the by-simultaneity map
keyed by group size, and the by-combination map keyed by the sorted list of
identifiers (canonical form of the Python set-of-ints string key). -/
structure EventTypeTotals where
  total : Nat
  by_simultaneity : Nat → ℚ
  by_combination : List Nat → ℚ

/-- Per-direction aggregate counters for buttons
(`totals['buttons']['allowed'/'blocked']`). -/
structure ButtonTypeTotals where
  total : Nat
  by_button : Nat → Nat

/-- Translation of the `Events.__init__` totals dict (the Aggregate
Counters). -/
structure Totals where
  events_allowed : EventTypeTotals
  events_blocked : EventTypeTotals
  events_mixed_total : Nat
  buttons_allowed : ButtonTypeTotals
  buttons_blocked : ButtonTypeTotals

/-- Zero-initialized Aggregate Counters, as built in `Events.__init__`
(defaultdicts default to 0). -/
def Totals.initial : Totals :=
  { events_allowed := { total := 0, by_simultaneity := fun _ => 0, by_combination := fun _ => 0 }
    events_blocked := { total := 0, by_simultaneity := fun _ => 0, by_combination := fun _ => 0 }
    events_mixed_total := 0
    buttons_allowed := { total := 0, by_button := fun _ => 0 }
    buttons_blocked := { total := 0, by_button := fun _ => 0 } }

/-- Pointwise increment of a defaultdict modelled as a Nat-keyed map. -/
def bumpN (f : Nat → Nat) (k : Nat) (v : Nat) : Nat → Nat :=
  fun n => if n = k then f n + v else f n

/-- Pointwise increment of a defaultdict modelled as a Nat-keyed rational map. -/
def bumpQ (f : Nat → ℚ) (k : Nat) (v : ℚ) : Nat → ℚ :=
  fun n => if n = k then f n + v else f n

/-- Pointwise increment of a defaultdict modelled as a combination-keyed map. -/
def bumpC (f : List Nat → ℚ) (k : List Nat) (v : ℚ) : List Nat → ℚ :=
  fun c => if c = k then f c + v else f c

/-- Insertion of a value into a sorted list of identifiers. -/
def insertSorted (x : Nat) : List Nat → List Nat
  | [] => [x]
  | y :: ys => if x ≤ y then x :: y :: ys else y :: insertSorted x ys

/-- Sorted canonical form of a Python `set` of identifier keys: sort the
deduplicated key list (dict keys are unique, so `dedup` is a no-op on
reachable states). -/
def sortKeys (l : List Nat) : List Nat := l.dedup.foldr insertSorted []

/-- Per-session state relevant to the claims: the configuration, the active
Correlation Group (`Events.active_event`) and the Aggregate Counters
(`Events.totals`). -/
structure DeviceState where
  settings : SettingsButtons
  active_event : Event
  totals : Totals

/-- Translation of `Button.is_button_within_threshold(the_device)`: is this
press within `min_separation` (seconds) of any other-identifier member of
the active group. -/
def Button.is_button_within_threshold (b : Button) (dev : DeviceState) : Bool :=
  dev.active_event.buttons.any (fun p =>
    !(p.2.identifier == b.identifier) &&
      decide (pyAbs (b.start_time - p.2.start_time) < dev.settings.min_separation))

/-- Translation of `Button.is_ghost_press(the_device)`: filtering enabled,
more group members than `max_concurrent` (note: ALL members of the dict are
counted, expired ones included), within `min_separation` of another member,
and not a legitimate long press (still held with strict mode off). -/
def Button.is_ghost_press (b : Button) (dev : DeviceState) : Bool :=
  let is_filtering := dev.settings.filter
  let is_max_concurrent := decide (dev.active_event.buttons.length > dev.settings.max_concurrent)
  let is_within_min_separation := b.is_button_within_threshold dev
  let is_legitimate_long_press := truthy b.is_still_pressed && !dev.settings.is_strict
  is_filtering && is_max_concurrent && is_within_min_separation && !is_legitimate_long_press

/-- Translation of `Button.is_ghost_release(the_device)`: filtering enabled
and (only when this release was connected to an event) the active group has
a ghost-classified member with the same identifier. -/
def Button.is_ghost_release (b : Button) (dev : DeviceState) : Bool :=
  let is_filtering := dev.settings.filter
  let has_matching_ghost_press :=
    if b.event_id.isSome then dev.active_event.has_matching b true else false
  is_filtering && has_matching_ghost_press

/-- Translation of `Button.evaluate_button(the_device)`: set the evaluation
timestamp and derive the ghost classification. -/
def Button.evaluate_button (b : Button) (dev : DeviceState) (now : ℚ) : Button :=
  let b' := { b with trigger_time := some now }
  { b' with is_ghost := some (if b'.was_a_press then b'.is_ghost_press dev else b'.is_ghost_release dev) }

/-- Observable actions of the deferred evaluation: a virtual button write,
or the invocation of a registered callback handle. -/
inductive Action where
  | write (id : Nat) (val : Bool)
  | invoke (cb : Nat)
deriving DecidableEq

/-- Translation of `Device.filter_the_button(the_button, vjoy, joy)`:
sample the current physical state into `is_still_pressed`, evaluate the
classification, and if not a ghost, write the sampled state to the virtual
button and then invoke the callbacks registered for this identifier under
the direction chosen by the sampled state (`'press' if is_still_pressed
else 'release'`).  Returns the updated button and the ordered action trace.
(The scheduling of the later `end_tracking` call is modelled separately.) -/
def Device.filter_the_button (dev : DeviceState) (b : Button) (sampled : Bool) (now : ℚ) :
    Button × List Action :=
  let b1 := { b with is_still_pressed := some sampled }
  let b2 := b1.evaluate_button dev now
  if !truthy b2.is_ghost then
    let cbs := dev.settings.callbacks sampled b2.identifier
    (b2, Action.write b2.identifier sampled :: cbs.map Action.invoke)
  else
    (b2, [])

/-- Translation of the per-button decorator callback installed by
`Device.initialize_buttons`: a press is registered into the active group
via `Events.start_tracking` (when remapping is enabled); a release searches
the active group with `Event.find_button` and, when that search is truthy,
connects the release to that group.  Returns the updated session state and
the button object that the deferred evaluation will later receive. -/
def Device.button_event_step (dev : DeviceState) (identifier : Nat) (is_pressed : Bool)
    (now : ℚ) : DeviceState × Button :=
  let the_button := Button.init identifier is_pressed now
  if the_button.was_a_press then
    if dev.settings.enabled then
      let eb := dev.active_event.add_button the_button
      ({ dev with active_event := eb.1 }, eb.2)
    else
      (dev, the_button)
  else
    match dev.active_event.find_button the_button with
    | some _ => (dev, the_button.connect_to_event dev.active_event)
    | none => (dev, the_button)

/-- Per-sub-combination statistics increment from the tail of
`Events.update_totals`, acting on the `totals['events'][event_type]`
sub-record: for a non-empty sub-combination, bump the matching
`by_simultaneity` and `by_combination` entries by `1.0 / size`. -/
def addCombination (e : EventTypeTotals) (keys : List Nat) : EventTypeTotals :=
  let combination := sortKeys keys
  let size := combination.length
  if size > 0 then
    { e with
        by_simultaneity := bumpQ e.by_simultaneity size (1 / (size : ℚ)),
        by_combination := bumpC e.by_combination combination (1 / (size : ℚ)) }
  else
    e

/-- Identifiers of the allowed (not ghost-classified) members of a group,
in dict order (`by_event['allowed']` in `Events.update_totals`). -/
def allowedKeys (ev : Event) : List Nat :=
  (ev.buttons.filter (fun p => !truthy p.2.is_ghost)).map Prod.fst

/-- Identifiers of the blocked (ghost-classified) members of a group, in
dict order (`by_event['blocked']` in `Events.update_totals`). -/
def blockedKeys (ev : Event) : List Nat :=
  (ev.buttons.filter (fun p => truthy p.2.is_ghost)).map Prod.fst

/-- Whole-event classification increment from the head of
`Events.update_totals`: the event counts as mixed when heterogeneous, else
blocked when any member is ghost, else allowed. -/
def bumpEventTotals (t : Totals) (is_heterogeneous is_ghost : Bool) : Totals :=
  if is_heterogeneous then { t with events_mixed_total := t.events_mixed_total + 1 }
  else if is_ghost then
    let eb := t.events_blocked
    { t with events_blocked := { eb with total := eb.total + 1 } }
  else
    let ea := t.events_allowed
    { t with events_allowed := { ea with total := ea.total + 1 } }

/-- Per-member increment from the button loop of `Events.update_totals`:
bump the blocked or allowed button total and the per-button count. -/
def bumpButtonTotals (acc : Totals) (p : Nat × Button) : Totals :=
  if truthy p.2.is_ghost then
    let bb := acc.buttons_blocked
    { acc with buttons_blocked := { total := bb.total + 1, by_button := bumpN bb.by_button p.1 1 } }
  else
    let ba := acc.buttons_allowed
    { acc with buttons_allowed := { total := ba.total + 1, by_button := bumpN ba.by_button p.1 1 } }

/-- Translation of `Events.update_totals()` applied to a finalized group:
classify the whole event (mixed / blocked / allowed) and bump its total;
bump the per-button totals; then bump the weighted by-simultaneity and
by-combination statistics once per non-empty allowed and blocked
sub-combination. -/
def Events.update_totals (enabled : Bool) (ev : Event) (t : Totals) : Totals :=
  if !enabled then t
  else
    let is_ghost := ev.has_any true
    let is_heterogeneous := ev.has_any (!is_ghost)
    let t1 := bumpEventTotals t is_heterogeneous is_ghost
    let t2 := ev.buttons.foldl bumpButtonTotals t1
    let t3 := { t2 with events_allowed := addCombination t2.events_allowed (allowedKeys ev) }
    { t3 with events_blocked := addCombination t3.events_blocked (blockedKeys ev) }

/-- Translation of `Events.end_tracking(the_button, the_device)`: expire
the button (which, via aliasing, also expires its entry in the active
group); when the active group has no remaining active presses, update the
Aggregate Counters from it, flush it, and replace it with a fresh empty
group. -/
def Events.end_tracking (dev : DeviceState) (b : Button) (now : ℚ) : DeviceState × Button :=
  if !dev.settings.enabled then (dev, b)
  else
    let b' := { b with end_time := some now }
    let ev' := dev.active_event.expire_member b now
    if ev'.get_active_presses.length ≤ 0 then
      ({ dev with
          totals := Events.update_totals dev.settings.enabled ev' dev.totals,
          active_event := Event.fresh now }, b')
    else
      ({ dev with active_event := ev' }, b')

/-- Translation of the Logger summary record (`Logger.__init__` /
`Logger.summarize`). -/
structure LoggerSummary where
  percentage : ℚ
  start_time : ℚ
  elapsed_time : ℚ
  per_minute : ℚ
  per_hour : ℚ
deriving DecidableEq

/-- Translation of `Logger.summarize(the_device)`: recompute the percentage
blocked, the elapsed time and the block rates into the logger's own summary
record, reading (but never writing) the Aggregate Counters; the remaining
body only formats and logs sorted read-only views of the totals.  The
counters are threaded through and returned so that the frame effect is part
of the model. -/
def Logger.summarize (enabled : Bool) (s : LoggerSummary) (t : Totals) (now : ℚ) :
    LoggerSummary × Totals :=
  if !enabled then (s, t)
  else
    let total := t.buttons_blocked.total + t.buttons_allowed.total
    let percentage :=
      if total > 0 then ((t.buttons_blocked.total : ℚ) / (total : ℚ)) * 100 else 0
    let elapsed := now - s.start_time
    let per_minute := ((t.buttons_blocked.total : ℚ) / elapsed) * 60
    ({ s with
        percentage := percentage,
        elapsed_time := elapsed,
        per_minute := per_minute,
        per_hour := per_minute * 60 }, t)

end GhostInputFilter

namespace GhostInputFilter

/-- Concurrency as the specification words it: the number of currently
active (non-expired) transitions in a Correlation Group. -/
def SpecActiveCount (ev : Event) : Nat :=
  (ev.buttons.filter (fun p => p.2.end_time == none)).length

/-- Ghost-press rule exactly as the claim words it: filtering enabled, the
count of transitions CURRENTLY ACTIVE in the group exceeds
`max_concurrent`, the press within `min_separation` of another transition
of the group, and (unless strict mode) the button no longer held down. -/
def SpecGhostPress (b : Button) (dev : DeviceState) : Prop :=
  dev.settings.filter = true ∧
  SpecActiveCount dev.active_event > dev.settings.max_concurrent ∧
  (∃ p ∈ dev.active_event.buttons, p.2.identifier ≠ b.identifier ∧
      pyAbs (b.start_time - p.2.start_time) < dev.settings.min_separation) ∧
  (dev.settings.is_strict = true ∨ truthy b.is_still_pressed = false)

/-- Ghost-press rule with the concurrency count amended to the full size of
the group's member dict (expired, not-yet-removed members included), which
is what `len(the_device.events.active_event.buttons)` computes. -/
def AmendedGhostPress (b : Button) (dev : DeviceState) : Prop :=
  dev.settings.filter = true ∧
  dev.active_event.buttons.length > dev.settings.max_concurrent ∧
  (∃ p ∈ dev.active_event.buttons, p.2.identifier ≠ b.identifier ∧
      pyAbs (b.start_time - p.2.start_time) < dev.settings.min_separation) ∧
  (dev.settings.is_strict = true ∨ truthy b.is_still_pressed = false)

/-- Configuration for the expired-member scenario: filtering on, latency
35ms, `max_concurrent` 2, `min_separation` 10ms, strict mode off (all
durations in seconds). -/
def sbEx : SettingsButtons :=
  { enabled := true, filter := true, latency := 7/200, max_concurrent := 2,
    min_separation := 1/100, is_strict := false, callbacks := fun _ _ => [] }

/-- Transition A of the scenario: pressed at t=0s, evaluated legitimate
(alone in the group at its evaluation), expired at t=0.070s while later
members kept the group open. -/
def btnA : Button :=
  { event_id := some 0, identifier := 1, was_a_press := true, is_still_pressed := some false,
    is_ghost := some false, start_time := 0, trigger_time := some (7/200), end_time := some (7/100) }

/-- Transition B of the scenario: pressed at t=0.040s, still held and
evaluated legitimate at t=0.075s, still active. -/
def btnB : Button :=
  { event_id := some 0, identifier := 2, was_a_press := true, is_still_pressed := some true,
    is_ghost := some false, start_time := 1/25, trigger_time := some (3/40), end_time := none }

/-- Transition C of the scenario: the candidate press, arrived at t=0.045s
(5ms after B, within `min_separation`), sampled no-longer-held, about to be
evaluated at t=0.080s (after A has expired). -/
def exBtn : Button :=
  { event_id := some 0, identifier := 3, was_a_press := true, is_still_pressed := some false,
    is_ghost := none, start_time := 9/200, trigger_time := none, end_time := none }

/-- The active Correlation Group of the scenario: holds A (expired), B and
C (active); it was never finalized because a member was always active. -/
def exEvent : Event :=
  { start_time := 0, end_time := none, id := 0, buttons := [(1, btnA), (2, btnB), (3, exBtn)] }

/-- Session state at the moment transition C is evaluated. -/
def exDev : DeviceState :=
  { settings := sbEx, active_event := exEvent, totals := Totals.initial }

/-- Configuration built through `Settings.Buttons.__init__` with
`max_concurrent = 0` and `min_separation = 0` (and strict mode on). -/
def sb6 : SettingsButtons := SettingsButtons.init true true 35 0 0 true

/-- First of two near-simultaneous presses (t=0s) under the edge-case
configuration. -/
def p6 : Button :=
  { event_id := some 0, identifier := 1, was_a_press := true, is_still_pressed := some false,
    is_ghost := none, start_time := 0, trigger_time := none, end_time := none }

/-- Second press (t=0.001s, 1ms after the first, released again) under the
edge-case configuration: the candidate being evaluated. -/
def q6 : Button :=
  { event_id := some 0, identifier := 2, was_a_press := true, is_still_pressed := some false,
    is_ghost := none, start_time := 1/1000, trigger_time := none, end_time := none }

/-- Session state for the edge-case configuration: two grouped presses,
concurrency 2 above the `max_concurrent = 0` threshold. -/
def dev6 : DeviceState :=
  { settings := sb6,
    active_event := { start_time := 0, end_time := none, id := 0, buttons := [(1, p6), (2, q6)] },
    totals := Totals.initial }

/-- First member of a finalized homogeneous two-press group, classified
legitimate and expired. -/
def u5 : Button :=
  { event_id := some 0, identifier := 1, was_a_press := true, is_still_pressed := some true,
    is_ghost := some false, start_time := 0, trigger_time := some (7/200), end_time := some (7/100) }

/-- Second member of the finalized group, also legitimate and expired. -/
def v5 : Button :=
  { event_id := some 0, identifier := 2, was_a_press := true, is_still_pressed := some true,
    is_ghost := some false, start_time := 1/100, trigger_time := some (9/200), end_time := some (2/25) }

/-- A finalized Correlation Group of N = 2 transitions, both allowed. -/
def ev5 : Event :=
  { start_time := 0, end_time := none, id := 0, buttons := [(1, u5), (2, v5)] }

/-- A transition that has already been expired by a first `end_tracking`
invocation (its `end_time` is set). -/
def b7 : Button :=
  { event_id := some 0, identifier := 9, was_a_press := true, is_still_pressed := some false,
    is_ghost := some false, start_time := 1/100, trigger_time := some (9/200), end_time := some (2/25) }

/-- Session state right after that first invocation finalized the old group:
the active group is the fresh empty replacement. -/
def dev7 : DeviceState :=
  { settings := sbEx, active_event := Event.fresh 100, totals := Totals.initial }

/-- A still-active press (identifier 1) that keeps a group open. -/
def wActive : Button :=
  { event_id := some 0, identifier := 1, was_a_press := true, is_still_pressed := some true,
    is_ghost := some false, start_time := 0, trigger_time := some (7/200), end_time := none }

/-- Session state whose active group still holds an active press while the
already-expired `b7` is re-expired. -/
def devW7 : DeviceState :=
  { settings := sbEx,
    active_event := { start_time := 0, end_time := none, id := 0, buttons := [(1, wActive)] },
    totals := Totals.initial }

/-- A press for identifier 3 that was classified ghost and is still in the
active group when its release arrives. -/
def gp2 : Button :=
  { event_id := some 0, identifier := 3, was_a_press := true, is_still_pressed := some false,
    is_ghost := some true, start_time := 0, trigger_time := some (7/200), end_time := none }

/-- Session state at the arrival of the release of identifier 3 (filtering
enabled, matching ghost press in the active group). -/
def dev2 : DeviceState :=
  { settings := { sbEx with is_strict := true },
    active_event := { start_time := 0, end_time := none, id := 0, buttons := [(3, gp2)] },
    totals := Totals.initial }

/-- Configuration with one press callback (handle 7) and one release
callback (handle 9) registered for button 3. -/
def sb8 : SettingsButtons :=
  { enabled := true, filter := true, latency := 7/200, max_concurrent := 1,
    min_separation := 1/100, is_strict := false,
    callbacks := fun dir id => if id = 3 then (if dir then [7] else [9]) else [] }

/-- A press transition for button 3, alone in its group, that will be
sampled as no longer held at evaluation time. -/
def b8 : Button :=
  { event_id := some 0, identifier := 3, was_a_press := true, is_still_pressed := none,
    is_ghost := none, start_time := 0, trigger_time := none, end_time := none }

/-- Session state for the callback-direction scenario. -/
def dev8 : DeviceState :=
  { settings := sb8,
    active_event := { start_time := 0, end_time := none, id := 0, buttons := [(3, b8)] },
    totals := Totals.initial }

/-- Configuration with filtering disabled (pass-through mode). -/
def sbW3 : SettingsButtons :=
  { enabled := true, filter := false, latency := 0, max_concurrent := 1,
    min_separation := 0, is_strict := true, callbacks := fun _ _ => [] }

/-- A freshly arrived press for button 5 in pass-through mode. -/
def bW3 : Button := Button.init 5 true 0

/-- Session state in pass-through mode. -/
def devW3 : DeviceState :=
  { settings := sbW3, active_event := Event.fresh 0, totals := Totals.initial }

end GhostInputFilter

namespace GhostInputFilter

theorem bumpQ_self (f : Nat → ℚ) (k : Nat) (v : ℚ) : bumpQ f k v k = f k + v := by
  simp [bumpQ]

theorem bumpC_self (f : List Nat → ℚ) (k : List Nat) (v : ℚ) : bumpC f k v k = f k + v := by
  simp [bumpC]

theorem bumpEventTotals_maps (t : Totals) (h g : Bool) :
    (bumpEventTotals t h g).events_allowed.by_simultaneity = t.events_allowed.by_simultaneity ∧
    (bumpEventTotals t h g).events_allowed.by_combination = t.events_allowed.by_combination ∧
    (bumpEventTotals t h g).events_blocked.by_simultaneity = t.events_blocked.by_simultaneity ∧
    (bumpEventTotals t h g).events_blocked.by_combination = t.events_blocked.by_combination := by
  unfold bumpEventTotals
  split
  · exact ⟨rfl, rfl, rfl, rfl⟩
  · split <;> exact ⟨rfl, rfl, rfl, rfl⟩

theorem bumpButtonTotals_events_allowed (acc : Totals) (p : Nat × Button) :
    (bumpButtonTotals acc p).events_allowed = acc.events_allowed := by
  unfold bumpButtonTotals
  split <;> rfl

theorem bumpButtonTotals_events_blocked (acc : Totals) (p : Nat × Button) :
    (bumpButtonTotals acc p).events_blocked = acc.events_blocked := by
  unfold bumpButtonTotals
  split <;> rfl

theorem foldl_bumpButtonTotals_events_allowed (l : List (Nat × Button)) (t : Totals) :
    (l.foldl bumpButtonTotals t).events_allowed = t.events_allowed := by
  induction l generalizing t with
  | nil => rfl
  | cons p l ih => rw [List.foldl_cons, ih, bumpButtonTotals_events_allowed]

theorem foldl_bumpButtonTotals_events_blocked (l : List (Nat × Button)) (t : Totals) :
    (l.foldl bumpButtonTotals t).events_blocked = t.events_blocked := by
  induction l generalizing t with
  | nil => rfl
  | cons p l ih => rw [List.foldl_cons, ih, bumpButtonTotals_events_blocked]

theorem addCombination_pos (e : EventTypeTotals) (keys : List Nat)
    (h : 0 < (sortKeys keys).length) :
    addCombination e keys =
      { e with
        by_simultaneity := bumpQ e.by_simultaneity (sortKeys keys).length
          (1 / ((sortKeys keys).length : ℚ)),
        by_combination := bumpC e.by_combination (sortKeys keys)
          (1 / ((sortKeys keys).length : ℚ)) } := by
  unfold addCombination
  simp [h]

/-- C1: the claim classifies a press as ghost exactly when filtering is
enabled, the count of transitions CURRENTLY ACTIVE in the group exceeds
`max_concurrent`, the press is within `min_separation` of another group
member, and (unless strict mode) the button is no longer held.  This fails
on the code: at the concrete state `exDev` (a reachable state whose group
holds one expired and two active transitions, with `max_concurrent = 2`),
`is_ghost_press` classifies the press `exBtn` ghost although only 2
transitions are active, which does not exceed `max_concurrent`. -/
theorem C1_ghost_press_rule_counterexample :
    exBtn.is_ghost_press exDev = true ∧ ¬ SpecGhostPress exBtn exDev := by
  constructor
  · norm_num [Button.is_ghost_press, Button.is_button_within_threshold, pyAbs, truthy,
      exBtn, exDev, exEvent, sbEx, btnA, btnB]
  · intro hcontra
    rcases hcontra with ⟨-, h2, -⟩
    norm_num [SpecActiveCount, exDev, exEvent, btnA, btnB, exBtn, sbEx] at h2

/-- C1 (amended): a press is classified ghost if and only if filtering is
enabled, the TOTAL number of transitions in its Correlation Group's member
dict (expired, not-yet-removed members included) exceeds `max_concurrent`,
the press occurred within `min_separation` of at least one other transition
in the same group, and — unless strict mode is enabled — the button is no
longer held down at evaluation time. -/
theorem C1_ghost_press_rule_amended (b : Button) (dev : DeviceState) :
    b.is_ghost_press dev = true ↔ AmendedGhostPress b dev := by
  simp only [Button.is_ghost_press, Button.is_button_within_threshold, AmendedGhostPress,
    Bool.and_eq_true, List.any_eq_true, Bool.not_eq_true', Bool.and_eq_false_iff,
    decide_eq_true_eq, beq_eq_false_iff_ne, ne_eq, Bool.not_eq_false, Bool.not_eq_false']
  tauto

/-- C2 (code bug): the claim (and the code's own surrounding comments)
require a release to inherit the classification of its matching ghost
press.  At the concrete state `dev2` — filtering enabled, a ghost press
for identifier 3 in the active group, the release for identifier 3
arriving — the release path leaves the release unconnected
(`find_button`'s body lacks a return, so the connection guard never
succeeds) and `is_ghost_release` yields `false`, so the ghost release is
forwarded instead of inherited. -/
theorem C2_release_inheritance_code_bug :
    dev2.settings.filter = true ∧
    dev2.active_event.has_matching (Device.button_event_step dev2 3 false 1).2 true = true ∧
    (Device.button_event_step dev2 3 false 1).2.event_id = none ∧
    Button.is_ghost_release (Device.button_event_step dev2 3 false 1).2
      (Device.button_event_step dev2 3 false 1).1 = false := by
  refine ⟨rfl, ?_, ?_, ?_⟩
  · norm_num [Device.button_event_step, Button.init, Event.find_button, Button.connect_to_event,
      Event.has_matching, List.lookup, dev2, gp2]
  · norm_num [Device.button_event_step, Button.init, Event.find_button, Button.connect_to_event,
      dev2]
  · norm_num [Device.button_event_step, Button.init, Event.find_button, Button.connect_to_event,
      Button.is_ghost_release, Event.has_matching, dev2, gp2, sbEx]

/-- C3: pass-through law.  When filtering is disabled, every transition
(press or release) is classified legitimate (`is_ghost = some false`) and
is forwarded unchanged: the virtual button is written with the transition's
own value (the zero-latency sample equals the transition direction), then
the registered callbacks for that direction run. -/
theorem C3_pass_through (dev : DeviceState) (b : Button) (sampled : Bool) (now : ℚ)
    (h : dev.settings.filter = false) (hs : sampled = b.was_a_press) :
    (Device.filter_the_button dev b sampled now).1.is_ghost = some false ∧
    (Device.filter_the_button dev b sampled now).2 =
      Action.write b.identifier b.was_a_press ::
        (dev.settings.callbacks b.was_a_press b.identifier).map Action.invoke := by
  subst hs
  simp [Device.filter_the_button, Button.evaluate_button, Button.is_ghost_press,
    Button.is_ghost_release, h, truthy]

/-- C3 (witness): the pass-through law applied to a concrete press for
button 5 in the filtering-disabled session `devW3`. -/
theorem C3_pass_through_witness :
    devW3.settings.filter = false ∧ (true = bW3.was_a_press) ∧
    ((Device.filter_the_button devW3 bW3 true 0).1.is_ghost = some false ∧
     (Device.filter_the_button devW3 bW3 true 0).2 =
       Action.write bW3.identifier bW3.was_a_press ::
         (devW3.settings.callbacks bW3.was_a_press bW3.identifier).map Action.invoke) :=
  ⟨rfl, rfl, C3_pass_through devW3 bW3 true 0 rfl rfl⟩

/-- C4: the claim states that no press of a group whose ACTIVE (non-expired)
concurrency is at most `max_concurrent` is classified ghost.  This fails on
the code, which counts expired members as well: at the state `exDev` the
active concurrency is 2 ≤ `max_concurrent` = 2, yet the press `exBtn` (a
member of the group) is classified ghost. -/
theorem C4_concurrency_bound_counterexample :
    SpecActiveCount exDev.active_event ≤ exDev.settings.max_concurrent ∧
    exBtn.was_a_press = true ∧
    (3, exBtn) ∈ exDev.active_event.buttons ∧
    exBtn.is_ghost_press exDev = true := by
  refine ⟨?_, rfl, ?_, ?_⟩
  · norm_num [SpecActiveCount, exDev, exEvent, btnA, btnB, exBtn, sbEx]
  · simp [exDev, exEvent]
  · norm_num [Button.is_ghost_press, Button.is_button_within_threshold, pyAbs, truthy,
      exBtn, exDev, exEvent, sbEx, btnA, btnB]

/-- C4 (amended): no press of a group whose TOTAL member count (expired,
not-yet-removed members included) is at most `max_concurrent` is classified
ghost, regardless of timing. -/
theorem C4_concurrency_bound_amended (dev : DeviceState) (b : Button)
    (h : dev.active_event.buttons.length ≤ dev.settings.max_concurrent) :
    b.is_ghost_press dev = false := by
  have hn : ¬ (dev.active_event.buttons.length > dev.settings.max_concurrent) := Nat.not_lt.mpr h
  simp [Button.is_ghost_press, hn]

/-- C4 (witness): the amended bound applied to the concrete session `dev8`,
whose group holds one member with `max_concurrent = 1`. -/
theorem C4_concurrency_bound_witness :
    dev8.active_event.buttons.length ≤ dev8.settings.max_concurrent ∧
    b8.is_ghost_press dev8 = false :=
  ⟨by norm_num [dev8, sb8], C4_concurrency_bound_amended dev8 b8 (by norm_num [dev8, sb8])⟩

end GhostInputFilter

namespace GhostInputFilter

/-- C5: the claim says that for a finalized group of N transitions the
`by_simultaneity` entry for size N and the matching `by_combination` entry
receive weight 1/N PER TRANSITION, so one group's increments sum to 1.
This fails on the code: the finalized homogeneous group `ev5` of N = 2
allowed transitions leaves `by_simultaneity[2]` at 1/2 (a single increment
of 1/N per group, not one per transition), and 1/2 is not 1. -/
theorem C5_weighted_counting_counterexample :
    ev5.buttons.length = 2 ∧
    (Events.update_totals true ev5 Totals.initial).events_allowed.by_simultaneity 2 = 1/2 ∧
    (Events.update_totals true ev5 Totals.initial).events_allowed.by_combination [1, 2] = 1/2 ∧
    ((1 : ℚ)/2 ≠ 1) := by
  refine ⟨rfl, ?_, ?_, by norm_num⟩
  · norm_num [Events.update_totals, bumpEventTotals, bumpButtonTotals, Event.has_any, truthy,
      addCombination, allowedKeys, blockedKeys, sortKeys, insertSorted, bumpQ, bumpC, bumpN,
      Totals.initial, ev5, u5, v5]
  · norm_num [Events.update_totals, bumpEventTotals, bumpButtonTotals, Event.has_any, truthy,
      addCombination, allowedKeys, blockedKeys, sortKeys, insertSorted, bumpQ, bumpC, bumpN,
      Totals.initial, ev5, u5, v5]

/-- C5 (amended): when a group is finalized, its members are split into the
allowed and the blocked sub-combination; for each non-empty sub-combination
of size S, the `by_simultaneity` entry for S and the matching
`by_combination` entry of that namespace are each incremented ONCE by
weight 1/S (per group, not per transition). -/
theorem C5_weighted_counting_amended (ev : Event) (t : Totals) :
    (0 < (sortKeys (allowedKeys ev)).length →
      (Events.update_totals true ev t).events_allowed.by_simultaneity
          (sortKeys (allowedKeys ev)).length
        = t.events_allowed.by_simultaneity (sortKeys (allowedKeys ev)).length
            + 1 / ((sortKeys (allowedKeys ev)).length : ℚ) ∧
      (Events.update_totals true ev t).events_allowed.by_combination (sortKeys (allowedKeys ev))
        = t.events_allowed.by_combination (sortKeys (allowedKeys ev))
            + 1 / ((sortKeys (allowedKeys ev)).length : ℚ)) ∧
    (0 < (sortKeys (blockedKeys ev)).length →
      (Events.update_totals true ev t).events_blocked.by_simultaneity
          (sortKeys (blockedKeys ev)).length
        = t.events_blocked.by_simultaneity (sortKeys (blockedKeys ev)).length
            + 1 / ((sortKeys (blockedKeys ev)).length : ℚ) ∧
      (Events.update_totals true ev t).events_blocked.by_combination (sortKeys (blockedKeys ev))
        = t.events_blocked.by_combination (sortKeys (blockedKeys ev))
            + 1 / ((sortKeys (blockedKeys ev)).length : ℚ)) := by
  have hfa := foldl_bumpButtonTotals_events_allowed ev.buttons
    (bumpEventTotals t (ev.has_any (!ev.has_any true)) (ev.has_any true))
  have hfb := foldl_bumpButtonTotals_events_blocked ev.buttons
    (bumpEventTotals t (ev.has_any (!ev.has_any true)) (ev.has_any true))
  have hm := bumpEventTotals_maps t (ev.has_any (!ev.has_any true)) (ev.has_any true)
  have hua : (Events.update_totals true ev t).events_allowed =
      addCombination (ev.buttons.foldl bumpButtonTotals
        (bumpEventTotals t (ev.has_any (!ev.has_any true)) (ev.has_any true))).events_allowed
        (allowedKeys ev) := rfl
  have hub : (Events.update_totals true ev t).events_blocked =
      addCombination (ev.buttons.foldl bumpButtonTotals
        (bumpEventTotals t (ev.has_any (!ev.has_any true)) (ev.has_any true))).events_blocked
        (blockedKeys ev) := rfl
  constructor
  · intro h
    rw [hua, addCombination_pos _ _ h]
    constructor
    · show bumpQ _ _ _ _ = _
      rw [bumpQ_self, hfa, hm.1]
    · show bumpC _ _ _ _ = _
      rw [bumpC_self, hfa, hm.2.1]
  · intro h
    rw [hub, addCombination_pos _ _ h]
    constructor
    · show bumpQ _ _ _ _ = _
      rw [bumpQ_self, hfb, hm.2.2.1]
    · show bumpC _ _ _ _ = _
      rw [bumpC_self, hfb, hm.2.2.2]

/-- C5 (witness): the amended weighted-counting law applied to the concrete
finalized group `ev5` (allowed sub-combination of size 2) on the initial
counters. -/
theorem C5_weighted_counting_witness :
    0 < (sortKeys (allowedKeys ev5)).length ∧
    ((Events.update_totals true ev5 Totals.initial).events_allowed.by_simultaneity
        (sortKeys (allowedKeys ev5)).length
      = Totals.initial.events_allowed.by_simultaneity (sortKeys (allowedKeys ev5)).length
          + 1 / ((sortKeys (allowedKeys ev5)).length : ℚ) ∧
     (Events.update_totals true ev5 Totals.initial).events_allowed.by_combination
        (sortKeys (allowedKeys ev5))
      = Totals.initial.events_allowed.by_combination (sortKeys (allowedKeys ev5))
          + 1 / ((sortKeys (allowedKeys ev5)).length : ℚ)) :=
  ⟨by norm_num [sortKeys, insertSorted, allowedKeys, truthy, ev5, u5, v5],
   (C5_weighted_counting_amended ev5 Totals.initial).1
     (by norm_num [sortKeys, insertSorted, allowedKeys, truthy, ev5, u5, v5])⟩

/-- C6: the claim says `min_separation = 0` turns the classifier into a pure
concurrency-count filter.  This fails on the code: at the concrete state
`dev6` (filtering on, `max_concurrent = 0`, `min_separation = 0`, strict
mode on, two grouped presses 1ms apart, so a pure concurrency filter would
block), the proximity condition `|delta| < 0` is unsatisfiable and the
press `q6` is NOT classified ghost. -/
theorem C6_edge_configs_counterexample :
    dev6.settings.filter = true ∧
    dev6.settings.is_strict = true ∧
    dev6.settings.min_separation = 0 ∧
    dev6.active_event.buttons.length > dev6.settings.max_concurrent ∧
    (2, q6) ∈ dev6.active_event.buttons ∧
    q6.is_ghost_press dev6 = false := by
  refine ⟨rfl, rfl, ?_, ?_, ?_, ?_⟩
  · norm_num [dev6, sb6, SettingsButtons.init]
  · norm_num [dev6, sb6, SettingsButtons.init]
  · simp [dev6]
  · norm_num [Button.is_ghost_press, Button.is_button_within_threshold, pyAbs, truthy,
      q6, dev6, p6, sb6, SettingsButtons.init]

/-- C6 (amended): with `max_concurrent = 0` every press in a non-empty group
satisfies the concurrency condition (any grouped press is above threshold);
with `min_separation = 0` the temporal-proximity condition is always false,
so NO press is ever classified ghost — the classifier is disabled rather
than reduced to a concurrency-count filter.  Neither configuration is
special-cased in the code. -/
theorem C6_edge_configs_amended :
    (∀ (dev : DeviceState), dev.settings.max_concurrent = 0 →
      dev.active_event.buttons ≠ [] →
      dev.active_event.buttons.length > dev.settings.max_concurrent) ∧
    (∀ (dev : DeviceState) (b : Button), dev.settings.min_separation = 0 →
      b.is_ghost_press dev = false) := by
  constructor
  · intro dev h1 h2
    rw [h1]
    exact List.length_pos.mpr h2
  · intro dev b h
    have hw : b.is_button_within_threshold dev = false := by
      simp only [Button.is_button_within_threshold, List.any_eq_false]
      intro p _
      have hlt : ¬ (pyAbs (b.start_time - p.2.start_time) < dev.settings.min_separation) := by
        rw [h]
        unfold pyAbs
        split <;> [linarith; linarith]
      simp [hlt]
    simp [Button.is_ghost_press, hw]

/-- C6 (witness): both amended edge-configuration laws applied to the
concrete session `dev6` (`max_concurrent = 0`, `min_separation = 0`) and
its press `q6`. -/
theorem C6_edge_configs_witness :
    dev6.settings.max_concurrent = 0 ∧ dev6.active_event.buttons ≠ [] ∧
    dev6.active_event.buttons.length > dev6.settings.max_concurrent ∧
    dev6.settings.min_separation = 0 ∧ q6.is_ghost_press dev6 = false :=
  ⟨rfl, by simp [dev6],
   C6_edge_configs_amended.1 dev6 rfl (by simp [dev6]),
   by norm_num [dev6, sb6, SettingsButtons.init],
   C6_edge_configs_amended.2 dev6 q6 (by norm_num [dev6, sb6, SettingsButtons.init])⟩

end GhostInputFilter

namespace GhostInputFilter

/-- C7: the claim requires a second `end_tracking` invocation on an
already-expired transition to leave the Aggregate Counters unchanged.  This
fails on the code: at the state `dev7` (reached right after a first
invocation finalized the group and installed a fresh empty active group),
re-invoking `end_tracking` on the already-expired `b7` finds no active
presses, re-finalizes the empty group, and increments the allowed-events
total from 0 to 1. -/
theorem C7_idempotence_counterexample :
    b7.end_time ≠ none ∧
    (Events.end_tracking dev7 b7 101).1.totals.events_allowed.total
      = dev7.totals.events_allowed.total + 1 ∧
    (Events.end_tracking dev7 b7 101).1.totals ≠ dev7.totals := by
  refine ⟨by simp [b7], ?_, ?_⟩
  · norm_num [Events.end_tracking, Event.expire_member, Event.get_active_presses, Event.fresh,
      Events.update_totals, bumpEventTotals, bumpButtonTotals, Event.has_any, truthy,
      addCombination, allowedKeys, blockedKeys, sortKeys, insertSorted, bumpQ, bumpC, bumpN,
      Totals.initial, dev7, b7, sbEx]
  · intro hcontra
    have hproj := congrArg (fun x => x.events_allowed.total) hcontra
    norm_num [Events.end_tracking, Event.expire_member, Event.get_active_presses, Event.fresh,
      Events.update_totals, bumpEventTotals, bumpButtonTotals, Event.has_any, truthy,
      addCombination, allowedKeys, blockedKeys, sortKeys, insertSorted, bumpQ, bumpC, bumpN,
      Totals.initial, dev7, b7, sbEx] at hproj

/-- C7 (amended): invoking `end_tracking` (again) on an already-expired
transition leaves all Aggregate Counters unchanged PROVIDED the active
Correlation Group still contains at least one active (non-expired)
transition after the expiry; when it contains none — in particular when it
is the fresh empty replacement group — the call re-finalizes it and
increments the event totals. -/
theorem C7_idempotence_amended (dev : DeviceState) (b : Button) (now : ℚ)
    (hen : dev.settings.enabled = true)
    (h : (dev.active_event.expire_member b now).get_active_presses ≠ []) :
    (Events.end_tracking dev b now).1.totals = dev.totals := by
  have hl : ¬ ((dev.active_event.expire_member b now).get_active_presses.length ≤ 0) := by
    have := List.length_pos.mpr h
    omega
  simp [Events.end_tracking, hen, hl]

/-- C7 (witness): the amended no-change law applied to the concrete session
`devW7`, whose group keeps the active press `wActive` while the expired
`b7` is re-expired. -/
theorem C7_idempotence_witness :
    devW7.settings.enabled = true ∧
    (devW7.active_event.expire_member b7 5).get_active_presses ≠ [] ∧
    (Events.end_tracking devW7 b7 5).1.totals = devW7.totals :=
  ⟨rfl, by norm_num [Event.expire_member, Event.get_active_presses, devW7, wActive, b7],
   C7_idempotence_amended devW7 b7 5 rfl
     (by norm_num [Event.expire_member, Event.get_active_presses, devW7, wActive, b7])⟩

/-- C8: the claim says an allowed transition with direction D triggers
exactly the callbacks registered for (X, D), D being the transition's own
press/release direction.  This fails on the code, which selects the
direction from the sampled still-held state: at the state `dev8`, the
allowed PRESS transition `b8` (no longer held when evaluated) fires the
release callback 9 registered for button 3 and not the press callback 7. -/
theorem C8_callback_contract_counterexample :
    b8.was_a_press = true ∧
    (Device.filter_the_button dev8 b8 false (7/200)).1.is_ghost = some false ∧
    dev8.settings.callbacks true 3 = [7] ∧
    dev8.settings.callbacks false 3 = [9] ∧
    (Device.filter_the_button dev8 b8 false (7/200)).2
      = [Action.write 3 false, Action.invoke 9] ∧
    Action.invoke 7 ∉ (Device.filter_the_button dev8 b8 false (7/200)).2 := by
  refine ⟨rfl, ?_, rfl, rfl, ?_, ?_⟩
  · norm_num [Device.filter_the_button, Button.evaluate_button, Button.is_ghost_press,
      Button.is_button_within_threshold, pyAbs, truthy, dev8, b8, sb8]
  · norm_num [Device.filter_the_button, Button.evaluate_button, Button.is_ghost_press,
      Button.is_button_within_threshold, pyAbs, truthy, dev8, b8, sb8]
  · norm_num [Device.filter_the_button, Button.evaluate_button, Button.is_ghost_press,
      Button.is_button_within_threshold, pyAbs, truthy, dev8, b8, sb8]
    decide

/-- C8 (amended): for every transition evaluated as allowed (not ghost),
the deferred evaluation first writes the sampled state to the virtual
button and then invokes, once each and in registration order, exactly the
callbacks registered for the transition's identifier under the direction
chosen by the SAMPLED state (press when still held, release otherwise);
callbacks of the other direction are not invoked. -/
theorem C8_callback_contract_amended (dev : DeviceState) (b : Button) (sampled : Bool) (now : ℚ)
    (h : truthy (Device.filter_the_button dev b sampled now).1.is_ghost = false) :
    (Device.filter_the_button dev b sampled now).2 =
      Action.write b.identifier sampled ::
        (dev.settings.callbacks sampled b.identifier).map Action.invoke := by
  simp only [Device.filter_the_button, apply_ite, ite_self] at h ⊢
  rw [h]
  simp [Button.evaluate_button]

/-- C8 (witness): the amended callback contract applied to the concrete
allowed transition `b8` in session `dev8` with a no-longer-held sample. -/
theorem C8_callback_contract_witness :
    truthy (Device.filter_the_button dev8 b8 false (7/200)).1.is_ghost = false ∧
    (Device.filter_the_button dev8 b8 false (7/200)).2 =
      Action.write b8.identifier false ::
        (dev8.settings.callbacks false b8.identifier).map Action.invoke :=
  ⟨by norm_num [Device.filter_the_button, Button.evaluate_button, Button.is_ghost_press,
      Button.is_button_within_threshold, pyAbs, truthy, dev8, b8, sb8],
   C8_callback_contract_amended dev8 b8 false (7/200)
     (by norm_num [Device.filter_the_button, Button.evaluate_button, Button.is_ghost_press,
        Button.is_button_within_threshold, pyAbs, truthy, dev8, b8, sb8])⟩

/-- C9: generating a summary is read-only with respect to the Aggregate
Counters: for every logger state, counters value and time, `summarize`
returns the counters unchanged (it recomputes only its own summary
record). -/
theorem C9_summarize_read_only (enabled : Bool) (s : LoggerSummary) (t : Totals) (now : ℚ) :
    (Logger.summarize enabled s t now).2 = t := by
  cases enabled <;> simp [Logger.summarize]

/-- C10: `Event.find_button` returns None for every button and every group
(even when a member with the same identifier is present, since the body
evaluates the lookup without returning it); consequently, in the
release-arrival path the guard on `find_button` never succeeds, and a
release is never connected to the active group (its `event_id` stays
None). -/
theorem C10_find_button_returns_none :
    (∀ (ev : Event) (b : Button), ev.find_button b = none) ∧
    (∀ (dev : DeviceState) (identifier : Nat) (now : ℚ),
      (Device.button_event_step dev identifier false now).2.event_id = none) := by
  constructor
  · intro ev b
    rfl
  · intro dev identifier now
    simp [Device.button_event_step, Button.init, Event.find_button]

end GhostInputFilter
